import Mathlib

/-!
Verification of the zlog-discord push-queue forwarder
(`src/zlog-discord/discord_bot.py`) against its natural-language
specification.  The Python source is shallowly embedded: pure helpers become
Lean functions, the per-record delivery loop becomes explicit state passing,
and the external collaborators (Discord client, database session) become
oracle records whose operations return `Option`/`Except` values.  Logging
calls are modelled as explicit event/warning values so that claims about
"a warning is emitted" are statable.
-/

namespace ZlogDiscord

/-- Python `str.isspace` characters relevant to `str.strip()` (ASCII range),
used to model the `.strip()` calls in the source. -/
def pyIsSpace (c : Char) : Bool :=
  c == ' ' || c == '\t' || c == '\n' || c == '\r' || c == '\x0b' || c == '\x0c'

/-- Model of Python `s.strip()`: remove leading and trailing whitespace. -/
def pyStrip (s : String) : String :=
  String.mk (((s.data.dropWhile pyIsSpace).reverse.dropWhile pyIsSpace).reverse)

/-- Model of Python truthiness chain `a or b` on an optional string: the
left side is taken when it is present and non-empty. -/
def pyOrStr (a : Option String) (b : String) : String :=
  match a with
  | some s => if s.data.isEmpty then b else s
  | none => b

/-- Model of the Python slice `s[:k]` on a string (first `k` code points). -/
def pySlice (s : String) (k : Nat) : String :=
  String.mk (s.data.take k)

/-- Model of Python `s.split(sep)` for a one-character separator
(accumulator pass over the character list). -/
def pySplitAux (sep : Char) : List Char → List Char → List (List Char)
  | [], acc => [acc.reverse]
  | c :: rest, acc =>
    if c == sep then acc.reverse :: pySplitAux sep rest []
    else pySplitAux sep rest (c :: acc)

/-- Model of Python `s.split(sep)` for a one-character separator. -/
def pySplit (sep : Char) (s : String) : List String :=
  (pySplitAux sep s.data []).map String.mk

/-- Model of Python `s.split(sep, 1)` for a one-character separator, used
on entries already known to contain the separator: the part before the
first occurrence and the part after it. -/
def pySplit1 (sep : Char) (s : String) : String × String :=
  let pre := s.data.takeWhile (fun c => !(c == sep))
  match s.data.dropWhile (fun c => !(c == sep)) with
  | [] => (String.mk pre, "")
  | _ :: rest => (String.mk pre, String.mk rest)

/-- Model of Python `sep in s` for a one-character separator. -/
def pyContains (s : String) (sep : Char) : Bool :=
  s.data.contains sep

/-- Model of Python `int(s)` on an already-stripped string: an optional
sign followed by one or more decimal digits; `none` models `ValueError`. -/
def pyInt (s : String) : Option Int :=
  let core : List Char → Option Nat := fun cs =>
    if cs.isEmpty then none
    else if cs.all Char.isDigit then
      some (cs.foldl (fun acc c => acc * 10 + (c.toNat - 48)) 0)
    else none
  match s.data with
  | '-' :: rest => (core rest).map (fun n => -(n : Int))
  | '+' :: rest => (core rest).map (fun n => (n : Int))
  | cs => (core cs).map (fun n => (n : Int))

/-- Python `dict` assignment `m[k] = v`: replace the binding of an existing
key in place, otherwise append the new binding (insertion order kept). -/
def insertAssoc {α β : Type} [DecidableEq α] : List (α × β) → α → β → List (α × β)
  | [], k, v => [(k, v)]
  | (k', v') :: rest, k, v =>
    if k' = k then (k, v) :: rest else (k', v') :: insertAssoc rest k v

/-- Container for data fetched from the `push` queue
(`PushNotification` dataclass in the source). -/
structure PushNotification where
  id : Int
  network : String
  window : String
  type : String
  user : Option String
  nick : Option String
  message : Option String
  recipient : Option String
deriving DecidableEq, Repr

/-- The f-string content built inside `to_discord_message` before the
length check: header, newline, author and body, stripped. -/
def formatContent (n : PushNotification) : String :=
  let header := "[" ++ n.network ++ "] " ++ n.window ++ " (" ++ n.type ++ ")"
  let author := pyOrStr n.nick (pyOrStr n.user "Unknown")
  let body := pyOrStr n.message ""
  pyStrip (header ++ "\n" ++ author ++ ": " ++ body)

/-- Model of `PushNotification.to_discord_message`: the returned text together with
a flag recording whether the truncation warning was logged. -/
def to_discord_message (n : PushNotification) : String × Bool :=
  let content := formatContent n
  if content.length > 2000 then (pySlice content 1997 ++ "...", true)
  else (content, false)

/-- Static configuration of the client: the parsed channel
map and the default channel id. -/
structure BotConfig where
  channel_map : List (String × Int)
  default_channel_id : Int
deriving DecidableEq, Repr

/-- Model of `PushQueueDiscordClient._resolve_channel_id`: the returned channel id
(the source's return type is `Optional[int]`) together with a flag
recording whether the fallback warning was logged. -/
def resolve_channel_id (cfg : BotConfig) (recipient : Option String) :
    Option Int × Bool :=
  match recipient with
  | none => (some cfg.default_channel_id, false)
  | some r =>
    if r.data.isEmpty then (some cfg.default_channel_id, false)
    else
      match cfg.channel_map.lookup r with
      | some v => (some v, false)
      | none =>
        if r = "self" then (some cfg.default_channel_id, false)
        else (some cfg.default_channel_id, true)

/-- A Discord channel handle; `messageable` models the
`isinstance(channel, Messageable)` check. -/
structure Channel where
  handle : Nat
  messageable : Bool
deriving DecidableEq, Repr

/-- Oracle for the external collaborators consulted during delivery: the
Discord client's channel lookup/fetch and send operations, and the
database delete (which may raise). -/
structure DiscordEnv where
  get_channel : Int → Option Channel
  fetch_channel_net : Int → Except Unit Channel
  send : Channel → String → Except Unit Unit
  delete_row : Int → Except Unit Unit

/-- Model of `PushQueueDiscordClient._fetch_channel`: cache lookup first; on a miss,
consult the client (`get_channel`, then `fetch_channel`, which may raise),
validate messageability, and cache a valid handle.  Returns the resolved
channel, the updated cache, and the number of external consultations
performed by this call. -/
def fetch_channel_cached (env : DiscordEnv) (cache : List (Int × Channel))
    (channel_id : Int) : Option Channel × List (Int × Channel) × Nat :=
  match cache.lookup channel_id with
  | some ch => (some ch, cache, 0)
  | none =>
    let resolved : Option Channel :=
      match env.get_channel channel_id with
      | some ch => some ch
      | none =>
        match env.fetch_channel_net channel_id with
        | Except.ok ch => some ch
        | Except.error _ => none
    match resolved with
    | none => (none, cache, 1)
    | some ch =>
      if ch.messageable then (some ch, insertAssoc cache channel_id ch, 1)
      else (none, cache, 1)

/-- Model of `PushQueueDiscordClient._delete_push_row`:
`DELETE FROM push WHERE id = row_id` over the in-memory model of the table. -/
def delete_push_row (rows : List PushNotification) (row_id : Int) :
    List PushNotification :=
  rows.filter (fun r => r.id ≠ row_id)

/-- Model of `PushQueueDiscordClient._fetch_pending_notifications`:
`SELECT * FROM push ORDER BY id` — the rows the engine returns, sorted by
ascending id. -/
def fetch_pending_notifications (rows : List PushNotification) :
    List PushNotification :=
  List.insertionSort (fun a b => a.id ≤ b.id) rows

/-- Per-record outcome logged by `_deliver_notifications`. -/
inductive DeliverEvent where
  | skippedNoChannelId (id : Int)
  | skippedChannelFetch (id : Int)
  | sendFailed (id : Int)
  | delivered (id : Int)
deriving DecidableEq, Repr

/-- Mutable state threaded through one delivery pass: the queue table, the
channel cache and the log of per-record outcomes. -/
structure DeliverState where
  store : List PushNotification
  cache : List (Int × Channel)
  events : List DeliverEvent
deriving DecidableEq, Repr

/-- One iteration of the `for` loop in `_deliver_notifications`: resolve
the channel id, fetch the channel, send, and on success delete the row.
The returned flag is `true` when the delete raised (that exception leaves
the per-record loop and is caught at cycle level); every handled failure
appends its event and continues. -/
def deliver_one (cfg : BotConfig) (env : DiscordEnv) (st : DeliverState)
    (n : PushNotification) : DeliverState × Bool :=
  match (resolve_channel_id cfg n.recipient).1 with
  | none =>
    ({ st with events := st.events ++ [DeliverEvent.skippedNoChannelId n.id] }, false)
  | some cid =>
    let fr := fetch_channel_cached env st.cache cid
    match fr.1 with
    | none =>
      ({ st with cache := fr.2.1,
                 events := st.events ++ [DeliverEvent.skippedChannelFetch n.id] }, false)
    | some ch =>
      match env.send ch (to_discord_message n).1 with
      | Except.error _ =>
        ({ st with cache := fr.2.1,
                   events := st.events ++ [DeliverEvent.sendFailed n.id] }, false)
      | Except.ok _ =>
        match env.delete_row n.id with
        | Except.error _ => ({ st with cache := fr.2.1 }, true)
        | Except.ok _ =>
          ({ store := delete_push_row st.store n.id, cache := fr.2.1,
             events := st.events ++ [DeliverEvent.delivered n.id] }, false)

/-- Model of `PushQueueDiscordClient._deliver_notifications`: process the batch in
order; an unhandled exception (raised delete) aborts the remaining records
of the batch, every handled failure continues with the next record. -/
def deliver_notifications (cfg : BotConfig) (env : DiscordEnv)
    (st : DeliverState) : List PushNotification → DeliverState × Bool
  | [] => (st, false)
  | n :: rest =>
    let r := deliver_one cfg env st n
    if r.2 then (r.1, true) else deliver_notifications cfg env r.1 rest

/-- The `try` block of one iteration of `_forward_notifications_loop`:
fetch (which may raise, modelled by the `Except` argument), then deliver
when the batch is non-empty.  `Except.error` means an exception reached
the cycle-level handler. -/
def cycle_attempt (cfg : BotConfig) (env : DiscordEnv)
    (fetched : Except Unit (List PushNotification)) (st : DeliverState) :
    Except Unit DeliverState :=
  match fetched with
  | Except.error e => Except.error e
  | Except.ok rows =>
    let ns := fetch_pending_notifications rows
    if ns.isEmpty then Except.ok st
    else
      let r := deliver_notifications cfg env st ns
      if r.2 then Except.error () else Except.ok r.1

/-- One full iteration of `_forward_notifications_loop` including its
`except Exception` handler: the flag records that the cycle-level error
was logged; the handler never rethrows.  On an error the delivery state
reached so far in the cycle is kept only up to the aborted batch, which
the model conservatively represents by the pre-cycle state. -/
def loop_body (cfg : BotConfig) (env : DiscordEnv)
    (fetched : Except Unit (List PushNotification)) (st : DeliverState) :
    DeliverState × Bool :=
  match cycle_attempt cfg env fetched st with
  | Except.ok st' => (st', false)
  | Except.error _ => (st, true)

/-- Model of `_forward_notifications_loop` run over a finite schedule of cycles,
each with its own external behaviour: returns the final state, the number
of cycle-level errors logged, and the number of cycles attempted. -/
def forward_loop (cfg : BotConfig) :
    List (DiscordEnv × Except Unit (List PushNotification)) → DeliverState →
    DeliverState × Nat × Nat
  | [], st => (st, 0, 0)
  | c :: rest, st =>
    let r := loop_body cfg c.1 c.2 st
    let k := forward_loop cfg rest r.1
    (k.1, (if r.2 then 1 else 0) + k.2.1, k.2.2 + 1)

/-- Warning logged while parsing `DISCORD_CHANNEL_MAP`. -/
inductive ParseWarning where
  | malformedEntry (entry : String)
  | invalidChannelId (channel_id recipient : String)
deriving DecidableEq, Repr

/-- The body of the `for entry in raw_mapping.split(",")` loop of
`parse_channel_map`: skip blank entries, warn on entries without `=`, on
empty recipient or id, and on non-numeric ids; otherwise assign into the
mapping (Python dict assignment overwrites an existing key). -/
def process_entry (acc : List (String × Int) × List ParseWarning)
    (entry : String) : List (String × Int) × List ParseWarning :=
  if (pyStrip entry).data.isEmpty then acc
  else if !(pyContains entry '=') then
    (acc.1, acc.2 ++ [ParseWarning.malformedEntry entry])
  else
    let recipient := pyStrip (pySplit1 '=' entry).1
    let channel_id := pyStrip (pySplit1 '=' entry).2
    if recipient.data.isEmpty || channel_id.data.isEmpty then
      (acc.1, acc.2 ++ [ParseWarning.malformedEntry entry])
    else
      match pyInt channel_id with
      | some v => (insertAssoc acc.1 recipient v, acc.2)
      | none => (acc.1, acc.2 ++ [ParseWarning.invalidChannelId channel_id recipient])

/-- Model of `parse_channel_map`: parse the `DISCORD_CHANNEL_MAP` string into the
recipient-to-channel mapping, together with the warnings logged. -/
def parse_channel_map (raw_mapping : Option String) :
    List (String × Int) × List ParseWarning :=
  match raw_mapping with
  | none => ([], [])
  | some s =>
    if s.data.isEmpty then ([], [])
    else (pySplit ',' s).foldl process_entry ([], [])

/-- Modelled from the spec (section 4.1): the formatting algorithm as the
specification words it — header, then author (`nick` if non-empty, else
`user` if non-empty, else "Unknown") and body (`message` or empty),
joined by a newline and trimmed.  Compared against `formatContent`. -/
def format_spec (n : PushNotification) : String :=
  let header := "[" ++ n.network ++ "] " ++ n.window ++ " (" ++ n.type ++ ")"
  let author :=
    match n.nick with
    | some s => if s.data.isEmpty = false then s
                else match n.user with
                     | some u => if u.data.isEmpty = false then u else "Unknown"
                     | none => "Unknown"
    | none =>
      match n.user with
      | some u => if u.data.isEmpty = false then u else "Unknown"
      | none => "Unknown"
  let body :=
    match n.message with
    | some m => m
    | none => ""
  pyStrip (header ++ "\n" ++ author ++ ": " ++ body)

/-- The record of the spec's formatting test case: `nick="alice"`,
`user=None`, `message="hi"`, `network="n"`, `window="w"`, `type="msg"`. -/
def exRecord : PushNotification :=
  { id := 1, network := "n", window := "w", type := "msg",
    user := none, nick := some "alice", message := some "hi", recipient := none }

/-- A record whose formatted content exceeds the 2000-character limit:
the body is 2100 copies of `x`. -/
def longRecord : PushNotification :=
  { id := 2, network := "n", window := "w", type := "msg",
    user := none, nick := some "alice",
    message := some (String.mk (List.replicate 2100 'x')), recipient := none }

/-- A record whose body is `k` copies of `x`; `longRecord` is `xRecord 2100`. -/
def xRecord (k : Nat) : PushNotification :=
  { id := 2, network := "n", window := "w", type := "msg",
    user := none, nick := some "alice",
    message := some (String.mk (List.replicate k 'x')), recipient := none }

/-- A messageable channel handle used by the concrete environments. -/
def chEx : Channel := { handle := 0, messageable := true }

/-- Environment in which every external operation succeeds. -/
def envOk : DiscordEnv :=
  { get_channel := fun _ => some chEx,
    fetch_channel_net := fun _ => Except.ok chEx,
    send := fun _ _ => Except.ok (),
    delete_row := fun _ => Except.ok () }

/-- Environment in which every send raises. -/
def envSendFail : DiscordEnv :=
  { get_channel := fun _ => some chEx,
    fetch_channel_net := fun _ => Except.ok chEx,
    send := fun _ _ => Except.error (),
    delete_row := fun _ => Except.ok () }

/-- Example configuration: `"known"` maps to `42`, default channel `7`. -/
def cfgEx : BotConfig := { channel_map := [("known", 42)], default_channel_id := 7 }

/-- Build a pending record with the given id. -/
def mkRec (i : Int) : PushNotification :=
  { id := i, network := "n", window := "w", type := "msg",
    user := none, nick := some "alice", message := some "hi", recipient := none }

/-- The spec's ordering test case: pending ids 5, 3, 9 in store order. -/
def exRows : List PushNotification := [mkRec 5, mkRec 3, mkRec 9]

/-- Initial delivery state over `exRows` with an empty cache. -/
def st0 : DeliverState := { store := exRows, cache := [], events := [] }

instance : DecidableRel (fun a b : PushNotification => a.id ≤ b.id) :=
  fun a b => inferInstanceAs (Decidable (a.id ≤ b.id))

instance : IsTotal PushNotification (fun a b => a.id ≤ b.id) :=
  ⟨fun a b => Int.le_total a.id b.id⟩

instance : IsTrans PushNotification (fun a b => a.id ≤ b.id) :=
  ⟨fun _ _ _ h h' => le_trans h h'⟩

/-- Assigning a key makes it look up to the assigned value. -/
theorem lookup_insertAssoc_self {α β : Type} [DecidableEq α] [BEq α] [LawfulBEq α]
    (m : List (α × β)) (k : α) (v : β) :
    (insertAssoc m k v).lookup k = some v := by
  induction m with
  | nil => simp [insertAssoc, List.lookup]
  | cons p rest ih =>
    rcases p with ⟨k', v'⟩
    by_cases h : k' = k
    · subst h
      simp [insertAssoc, List.lookup]
    · simp only [insertAssoc, if_neg h, List.lookup]
      have : (k == k') = false := by
        simp [beq_iff_eq]
        exact fun hk => h hk.symm
      rw [this]
      exact ih

/-- Assigning one key leaves the lookup of any other key unchanged. -/
theorem lookup_insertAssoc_ne {α β : Type} [DecidableEq α] [BEq α] [LawfulBEq α]
    (m : List (α × β)) (k i : α) (v : β) (hne : i ≠ k) :
    (insertAssoc m k v).lookup i = m.lookup i := by
  induction m with
  | nil =>
    simp only [insertAssoc, List.lookup]
    have : (i == k) = false := by simp [beq_iff_eq]; exact hne
    rw [this]
  | cons p rest ih =>
    rcases p with ⟨k', v'⟩
    by_cases h : k' = k
    · have hik : (i == k) = false := by simp [beq_iff_eq]; exact hne
      have hik' : (i == k') = false := by
        simp [beq_iff_eq]
        exact fun he => hne (he.trans h)
      simp only [insertAssoc, if_pos h, List.lookup, hik, hik']
    · simp only [insertAssoc, if_neg h, List.lookup]
      cases hik : (i == k') with
      | true => rfl
      | false => exact ih

/-- A string with empty character data is the empty string literal. -/
theorem eq_empty_of_data_isEmpty (s : String) (h : s.data.isEmpty = true) :
    s = "" := by
  cases s with
  | mk data =>
    rw [List.isEmpty_iff] at h
    subst h
    rfl

/-- Length of a string append is the sum of the lengths. -/
theorem string_length_append (s t : String) :
    (s ++ t).length = s.length + t.length := by
  show (s ++ t).data.length = s.data.length + t.data.length
  rw [String.data_append, List.length_append]

/-- Stripping a string that starts and ends with non-whitespace characters
is the identity. -/
theorem pyStrip_of_ends (c d : Char) (l : List Char)
    (hc : pyIsSpace c = false) (hd : pyIsSpace d = false) :
    pyStrip (String.mk (c :: (l ++ [d]))) = String.mk (c :: (l ++ [d])) := by
  unfold pyStrip
  simp only [List.dropWhile_cons, hc, if_false, Bool.false_eq_true, ite_false]
  have h1 : (c :: (l ++ [d])).reverse = d :: (l.reverse ++ [c]) := by
    simp
  rw [h1]
  simp only [List.dropWhile_cons, hd, if_false, Bool.false_eq_true, ite_false]
  simp

/-- A boolean-empty check on the character data is equality with `""`. -/
theorem data_isEmpty_iff (s : String) : s.data.isEmpty = true ↔ s = "" := by
  constructor
  · exact eq_empty_of_data_isEmpty s
  · intro h
    subst h
    rfl

/-- The `message or ""` chain yields the message itself (or `""` for a
missing message), matching the spec's wording of the body. -/
theorem pyOrStr_empty_default (a : Option String) :
    pyOrStr a "" = (match a with | some m => m | none => "") := by
  cases a with
  | none => rfl
  | some m =>
    show (if m.data.isEmpty = true then "" else m) = m
    cases h : m.data.isEmpty with
    | true =>
      have hm : m = "" := eq_empty_of_data_isEmpty m h
      simp [hm]
    | false => simp

/-- The formatted content of a record with body `(n+1)` copies of `x`:
stripping is the identity because the content starts with `[` and ends
with `x`. -/
theorem formatContent_replicate (n : Nat) :
    formatContent (xRecord (n + 1)) =
      String.mk ('[' :: (("n] w (msg)\nalice: ".data ++ List.replicate n 'x') ++ ['x'])) := by
  have h0 : formatContent (xRecord (n + 1)) =
      pyStrip (String.mk ("[n] w (msg)\nalice: ".data ++ List.replicate (n + 1) 'x')) := rfl
  rw [h0, List.replicate_succ' n 'x']
  have h1 : ∀ X : List Char,
      "[n] w (msg)\nalice: ".data ++ X = '[' :: ("n] w (msg)\nalice: ".data ++ X) :=
    fun _ => rfl
  rw [h1, ← List.append_assoc]
  exact pyStrip_of_ends '[' 'x' _ (by decide) (by decide)

/-- The formatted content of `longRecord` has 2119 characters. -/
theorem formatContent_longRecord_length :
    (formatContent longRecord).length = 2119 := by
  have hx : longRecord = xRecord 2100 := rfl
  have h : formatContent longRecord =
      String.mk ('[' :: (("n] w (msg)\nalice: ".data ++ List.replicate 2099 'x') ++ ['x'])) := by
    rw [hx]
    exact formatContent_replicate 2099
  rw [h]
  show ('[' :: (("n] w (msg)\nalice: ".data ++ List.replicate 2099 'x') ++ ['x'])).length = 2119
  have h18 : ("n] w (msg)\nalice: ".data).length = 18 := by decide
  rw [List.length_cons, List.length_append, List.length_append,
    List.length_replicate, h18]
  decide

/-- C8: parsing the channel-map string `"a=1,b=,=2,c=xyz,d=7"` yields
exactly the mapping `a ↦ 1, d ↦ 7` and logs exactly three warnings: a
malformed-entry warning for `"b="` (missing id), a malformed-entry warning
for `"=2"` (missing recipient), and an invalid-channel-id warning for the
non-numeric id `"xyz"` of recipient `"c"`; the malformed entries are
skipped, not fatal. -/
theorem C8_malformed_channel_map :
    parse_channel_map (some "a=1,b=,=2,c=xyz,d=7") =
      ([("a", 1), ("d", 7)],
       [ParseWarning.malformedEntry "b=", ParseWarning.malformedEntry "=2",
        ParseWarning.invalidChannelId "xyz" "c"]) := by
  decide

/-- C9 counterexample: for the channel-map string `"a=1,a=2"`, whose two
entries share the recipient key `"a"`, the duplicate entry is NOT skipped:
the parsed mapping binds `"a"` to the second value `2` (the first binding
is overwritten) and the warning list is empty, so no warning is logged for
the duplicate — refuting the claim that the duplicate entry is skipped
with a warning and the first binding kept. -/
theorem C9_counterexample :
    (parse_channel_map (some "a=1,a=2")).1.lookup "a" = some 2 ∧
    (parse_channel_map (some "a=1,a=2")).2 = [] := by
  constructor
  · decide
  · decide

/-- C9 (amended): when the parser reaches a well-formed entry whose
recipient key is already bound in the mapping built so far, the entry is
not skipped and no warning is logged: the new binding overwrites the old
one, so the LAST well-formed binding for a recipient is the one kept and
the warning list is unchanged. -/
theorem C9_amended_overwrite (m : List (String × Int)) (w : List ParseWarning)
    (e : String) (v : Int)
    (h1 : (pyStrip e).data.isEmpty = false)
    (h2 : pyContains e '=' = true)
    (h3 : (pyStrip (pySplit1 '=' e).1).data.isEmpty = false)
    (h4 : (pyStrip (pySplit1 '=' e).2).data.isEmpty = false)
    (h5 : pyInt (pyStrip (pySplit1 '=' e).2) = some v)
    (_hdup : ((m.lookup (pyStrip (pySplit1 '=' e).1)).isSome) = true) :
    process_entry (m, w) e = (insertAssoc m (pyStrip (pySplit1 '=' e).1) v, w) ∧
    (insertAssoc m (pyStrip (pySplit1 '=' e).1) v).lookup
        (pyStrip (pySplit1 '=' e).1) = some v := by
  constructor
  · unfold process_entry
    rw [if_neg (by simp [h1]), h2]
    simp only [Bool.not_true, Bool.false_eq_true, if_false, ite_false]
    rw [if_neg (by simp [h3, h4]), h5]
  · exact lookup_insertAssoc_self m _ v

/-- C9 witness: the amended theorem applied to the duplicate entry
`"a=2"` arriving with `"a"` already bound to `1`. -/
theorem C9_witness :
    process_entry ([("a", 1)], []) "a=2" = ([("a", 2)], []) ∧
    ([("a", (2 : Int))] : List (String × Int)).lookup "a" = some 2 := by
  have h := C9_amended_overwrite [("a", 1)] [] "a=2" 2
    (by decide) (by decide) (by decide) (by decide) (by decide) (by decide)
  exact ⟨h.1, h.2⟩

/-- C4: for every record the pre-limit formatted content is exactly the
header `"[{network}] {window} ({type})"`, a newline, then
`"{author}: {body}"` with surrounding whitespace trimmed, where the author
is `nick` if non-empty, else `user` if non-empty, else `"Unknown"`, and
the body is the message or the empty string (stated as equality with
`format_spec`, the spec-worded algorithm); the returned message equals
that content whenever it is within the length limit; and the spec's
concrete record formats to exactly `"[n] w (msg)\nalice: hi"`. -/
theorem C4_format_matches_spec (n : PushNotification) :
    formatContent n = format_spec n ∧
    ((formatContent n).length ≤ 2000 → (to_discord_message n).1 = formatContent n) ∧
    (to_discord_message exRecord).1 = "[n] w (msg)\nalice: hi" := by
  refine ⟨?_, ?_, by decide⟩
  · unfold formatContent format_spec
    rw [pyOrStr_empty_default n.message]
    cases hn : n.nick with
    | none =>
      cases hu : n.user with
      | none => rfl
      | some u =>
        show pyStrip _ = pyStrip _
        unfold pyOrStr
        cases hue : u.data.isEmpty with
        | true => simp
        | false => simp
    | some s =>
      show pyStrip _ = pyStrip _
      unfold pyOrStr
      cases hse : s.data.isEmpty with
      | true =>
        cases hu : n.user with
        | none => simp
        | some u =>
          cases hue : u.data.isEmpty with
          | true => simp
          | false => simp
      | false => simp
  · intro h
    unfold to_discord_message
    rw [if_neg (by omega)]

/-- C4 witness: the general part applied to the spec's concrete record,
whose content is within the limit. -/
theorem C4_witness :
    (formatContent exRecord).length ≤ 2000 ∧
    (to_discord_message exRecord).1 = formatContent exRecord :=
  ⟨by decide, (C4_format_matches_spec exRecord).2.1 (by decide)⟩

/-- C5: whenever the trimmed formatted content exceeds 2000 characters,
`to_discord_message` returns the first 1997 characters followed by
`"..."` — a string of exactly 2000 characters — and logs the truncation
(the flag in the pair); whenever the content is at most 2000 characters,
the content is returned unchanged with no truncation log.  Both cases are
total: formatting never raises. -/
theorem C5_truncation (n : PushNotification) :
    ((formatContent n).length > 2000 →
      to_discord_message n = (pySlice (formatContent n) 1997 ++ "...", true) ∧
      (to_discord_message n).1.length = 2000) ∧
    ((formatContent n).length ≤ 2000 →
      to_discord_message n = (formatContent n, false)) := by
  constructor
  · intro h
    have he : to_discord_message n = (pySlice (formatContent n) 1997 ++ "...", true) := by
      unfold to_discord_message
      rw [if_pos h]
    refine ⟨he, ?_⟩
    rw [he]
    show (pySlice (formatContent n) 1997 ++ "...").length = 2000
    rw [string_length_append]
    have h1 : (pySlice (formatContent n) 1997).length = 1997 := by
      show ((formatContent n).data.take 1997).length = 1997
      rw [List.length_take]
      have : 1997 ≤ (formatContent n).data.length := by
        have hlen : (formatContent n).length = (formatContent n).data.length := rfl
        omega
      omega
    rw [h1]
    decide
  · intro h
    unfold to_discord_message
    rw [if_neg (by omega)]

/-- C5 witness: the truncation branch applied to `longRecord`, whose
formatted content has 2119 characters. -/
theorem C5_witness :
    (formatContent longRecord).length > 2000 ∧
    (to_discord_message longRecord).1.length = 2000 := by
  have hlen : (formatContent longRecord).length > 2000 := by
    rw [formatContent_longRecord_length]
    omega
  exact ⟨hlen, ((C5_truncation longRecord).1 hlen).2⟩

/-- C3: channel resolution returns the mapped integer exactly when the
recipient is present, non-empty and a key of the mapping (with no
warning); in every other case it returns the default channel id; and the
warning is emitted exactly when the recipient is present, non-empty, not
`"self"`, and not a key of the mapping. -/
theorem C3_resolve_channel_id_spec (cfg : BotConfig) (r : Option String) :
    (∀ s v, r = some s → s ≠ "" → cfg.channel_map.lookup s = some v →
      resolve_channel_id cfg r = (some v, false)) ∧
    ((∀ s, r = some s → s ≠ "" → cfg.channel_map.lookup s = none) →
      (resolve_channel_id cfg r).1 = some cfg.default_channel_id) ∧
    ((resolve_channel_id cfg r).2 = true ↔
      ∃ s, r = some s ∧ s ≠ "" ∧ s ≠ "self" ∧ cfg.channel_map.lookup s = none) := by
  cases r with
  | none =>
    refine ⟨(by intro s v h; cases h), fun _ => rfl, ?_⟩
    constructor
    · intro h
      cases h
    · rintro ⟨s, hs, _⟩
      cases hs
  | some s =>
    by_cases he : s.data.isEmpty = true
    · have hs : s = "" := eq_empty_of_data_isEmpty s he
      subst hs
      refine ⟨?_, ?_, ?_⟩
      · intro s' v hso hne
        injection hso with hss
        exact absurd hss.symm hne
      · intro _
        simp [resolve_channel_id]
      · constructor
        · intro h
          simp [resolve_channel_id] at h
        · rintro ⟨s', hso, hne, _⟩
          injection hso with hss
          exact absurd hss.symm hne
    · have hne : s ≠ "" := by
        intro h
        subst h
        exact he rfl
      have heb : s.data.isEmpty = false := by
        cases hb : s.data.isEmpty with
        | true => exact absurd hb he
        | false => rfl
      cases hl : cfg.channel_map.lookup s with
      | some v =>
        refine ⟨?_, ?_, ?_⟩
        · intro s' v' hso hne' hlk
          injection hso with hss
          subst hss
          rw [hl] at hlk
          injection hlk with hv
          subst hv
          simp [resolve_channel_id, heb, hl]
        · intro hall
          have := hall s rfl hne
          rw [hl] at this
          cases this
        · constructor
          · intro h
            simp [resolve_channel_id, heb, hl] at h
          · rintro ⟨s', hso, _, _, hlk⟩
            injection hso with hss
            subst hss
            rw [hl] at hlk
            cases hlk
      | none =>
        by_cases hself : s = "self"
        · subst hself
          refine ⟨?_, ?_, ?_⟩
          · intro s' v hso hne' hlk
            injection hso with hss
            subst hss
            rw [hl] at hlk
            cases hlk
          · intro _
            simp [resolve_channel_id, heb, hl]
          · constructor
            · intro h
              simp [resolve_channel_id, heb, hl] at h
            · rintro ⟨s', hso, _, hns, _⟩
              injection hso with hss
              exact absurd hss.symm hns
        · refine ⟨?_, ?_, ?_⟩
          · intro s' v hso hne' hlk
            injection hso with hss
            subst hss
            rw [hl] at hlk
            cases hlk
          · intro _
            simp [resolve_channel_id, heb, hl, hself]
          · constructor
            · intro _
              exact ⟨s, rfl, hne, hself, hl⟩
            · intro _
              simp [resolve_channel_id, heb, hl, hself]

/-- C3 witness: `resolveChannelId("known")` with `"known" ↦ 42` in the map
returns `42` and logs no warning. -/
theorem C3_witness :
    resolve_channel_id cfgEx (some "known") = (some 42, false) :=
  (C3_resolve_channel_id_spec cfgEx (some "known")).1 "known" 42 rfl
    (by decide) (by decide)

/-- C2: the fetched batch is sorted by ascending id and is a permutation
of the store's rows; for the store holding pending ids 5, 3, 9 the fetch
returns ids in order 3, 5, 9 and one delivery pass over that batch
delivers them in exactly that order. -/
theorem C2_fetch_sorted_delivery_order (rows : List PushNotification) :
    List.Sorted (fun a b => a.id ≤ b.id) (fetch_pending_notifications rows) ∧
    (fetch_pending_notifications rows).Perm rows ∧
    (fetch_pending_notifications exRows).map PushNotification.id = [3, 5, 9] ∧
    (deliver_notifications cfgEx envOk st0 (fetch_pending_notifications exRows)).1.events =
      [DeliverEvent.delivered 3, DeliverEvent.delivered 5, DeliverEvent.delivered 9] :=
  ⟨List.sorted_insertionSort _ rows, List.perm_insertionSort _ rows,
   by decide, by decide⟩

/-- C1: in one delivery step, the record's row is deleted only after its
send succeeded — if the send raises, the store is unchanged, no exception
escapes, a send-failure event is logged, and the loop continues with the
next record; conversely any change to the store is exactly the deletion
of the record's row, and it implies the channel was resolved and fetched,
the send returned success, and the delete succeeded. -/
theorem C1_delete_only_after_send (cfg : BotConfig) (env : DiscordEnv)
    (st : DeliverState) (n : PushNotification) (ns : List PushNotification) :
    (∀ cid ch, (resolve_channel_id cfg n.recipient).1 = some cid →
      (fetch_channel_cached env st.cache cid).1 = some ch →
      env.send ch (to_discord_message n).1 = Except.error () →
      (deliver_one cfg env st n).1.store = st.store ∧
      (deliver_one cfg env st n).2 = false ∧
      (deliver_one cfg env st n).1.events =
        st.events ++ [DeliverEvent.sendFailed n.id]) ∧
    ((deliver_one cfg env st n).1.store ≠ st.store →
      (deliver_one cfg env st n).1.store = delete_push_row st.store n.id ∧
      (deliver_one cfg env st n).1.events =
        st.events ++ [DeliverEvent.delivered n.id] ∧
      ∃ cid ch, (resolve_channel_id cfg n.recipient).1 = some cid ∧
        (fetch_channel_cached env st.cache cid).1 = some ch ∧
        env.send ch (to_discord_message n).1 = Except.ok () ∧
        env.delete_row n.id = Except.ok ()) ∧
    (∀ r, deliver_one cfg env st n = (r, false) →
      deliver_notifications cfg env st (n :: ns) =
        deliver_notifications cfg env r ns) := by
  refine ⟨?_, ?_, ?_⟩
  · intro cid ch h1 h2 h3
    simp only [deliver_one, h1, h2, h3]
    exact ⟨trivial, trivial, trivial⟩
  · intro hst
    cases hres : (resolve_channel_id cfg n.recipient).1 with
    | none =>
      simp only [deliver_one, hres] at hst
      exact absurd rfl hst
    | some cid =>
      cases hch : (fetch_channel_cached env st.cache cid).1 with
      | none =>
        simp only [deliver_one, hres, hch] at hst
        exact absurd rfl hst
      | some ch =>
        cases hsend : env.send ch (to_discord_message n).1 with
        | error e =>
          cases e
          simp only [deliver_one, hres, hch, hsend] at hst
          exact absurd rfl hst
        | ok u =>
          cases u
          cases hdel : env.delete_row n.id with
          | error e =>
            cases e
            simp only [deliver_one, hres, hch, hsend, hdel] at hst
            exact absurd rfl hst
          | ok u' =>
            cases u'
            refine ⟨?_, ?_, ?_⟩
            · simp only [deliver_one, hres, hch, hsend, hdel]
            · simp only [deliver_one, hres, hch, hsend, hdel]
            · exact ⟨cid, ch, rfl, hch, hsend, rfl⟩
  · intro r h
    simp only [deliver_notifications, h]
    rfl

/-- C1 witness: a failing send for the single pending record leaves the
store unchanged, raises nothing, and logs a send-failure event. -/
theorem C1_witness :
    (deliver_one cfgEx envSendFail st0 (mkRec 1)).1.store = st0.store ∧
    (deliver_one cfgEx envSendFail st0 (mkRec 1)).2 = false :=
  have h := (C1_delete_only_after_send cfgEx envSendFail st0 (mkRec 1) []).1
    7 chEx rfl rfl rfl
  ⟨h.1, h.2.1⟩

/-- C6: every cycle-level failure (a fetch that raises, or a delivery pass
that raises) is caught inside the loop body, which returns normally with
the error logged; and the loop attempts every scheduled cycle no matter
how many cycles error, so no such error terminates the loop. -/
theorem C6_cycle_errors_caught (cfg : BotConfig)
    (cycles : List (DiscordEnv × Except Unit (List PushNotification)))
    (st : DeliverState) (env : DiscordEnv)
    (fetched : Except Unit (List PushNotification)) :
    (forward_loop cfg cycles st).2.2 = cycles.length ∧
    (∀ e, fetched = Except.error e → loop_body cfg env fetched st = (st, true)) ∧
    (∀ st', cycle_attempt cfg env fetched st = Except.ok st' →
      loop_body cfg env fetched st = (st', false)) ∧
    (∀ e, cycle_attempt cfg env fetched st = Except.error e →
      loop_body cfg env fetched st = (st, true)) := by
  refine ⟨?_, ?_, ?_, ?_⟩
  · induction cycles generalizing st with
    | nil => rfl
    | cons c rest ih =>
      simp only [forward_loop, List.length_cons]
      rw [ih]
  · intro e he
    subst he
    rfl
  · intro st' h
    simp only [loop_body, h]
  · intro e h
    simp only [loop_body, h]

/-- C6 witness: a cycle whose fetch raises is logged and the loop still
attempts the one scheduled cycle. -/
theorem C6_witness :
    loop_body cfgEx envOk (Except.error ()) st0 = (st0, true) ∧
    (forward_loop cfgEx [(envOk, Except.error ())] st0).2.2 = 1 :=
  have h := C6_cycle_errors_caught cfgEx [(envOk, Except.error ())] st0 envOk
    (Except.error ())
  ⟨h.2.1 () rfl, h.1⟩

/-- Any call of `fetch_channel_cached` that returns a handle leaves that
handle cached under the requested id. -/
theorem fetch_store_sound (env : DiscordEnv) (cache : List (Int × Channel))
    (cid : Int) (ch : Channel) (cache' : List (Int × Channel)) (k : Nat)
    (h : fetch_channel_cached env cache cid = (some ch, cache', k)) :
    cache'.lookup cid = some ch := by
  cases hl : cache.lookup cid with
  | some ch0 =>
    simp only [fetch_channel_cached, hl] at h
    injection h with h1 h23
    injection h23 with h2 h3
    injection h1 with h1'
    subst h1'
    subst h2
    exact hl
  | none =>
    simp only [fetch_channel_cached, hl] at h
    cases hg : env.get_channel cid with
    | some ch1 =>
      simp only [hg] at h
      cases hm : ch1.messageable with
      | true =>
        rw [if_pos hm] at h
        injection h with h1 h23
        injection h23 with h2 h3
        injection h1 with h1'
        subst h1'
        subst h2
        exact lookup_insertAssoc_self cache cid _
      | false =>
        rw [if_neg (by simp [hm])] at h
        injection h with h1 _
        cases h1
    | none =>
      cases hf : env.fetch_channel_net cid with
      | ok ch1 =>
        simp only [hg, hf] at h
        cases hm : ch1.messageable with
        | true =>
          rw [if_pos hm] at h
          injection h with h1 h23
          injection h23 with h2 h3
          injection h1 with h1'
          subst h1'
          subst h2
          exact lookup_insertAssoc_self cache cid _
        | false =>
          rw [if_neg (by simp [hm])] at h
          injection h with h1 _
          cases h1
      | error e =>
        simp only [hg, hf] at h
        injection h with h1 _
        cases h1

/-- C7: once a call to `fetch_channel_cached` has returned a handle for a
channel id (storing it in the cache), every later call for that id
returns the cached handle with zero external consultations and an
unchanged cache; and no call ever evicts an existing cache entry. -/
theorem C7_channel_cache_idempotent (env : DiscordEnv)
    (cache : List (Int × Channel)) (cid : Int) :
    (∀ ch cache' k, fetch_channel_cached env cache cid = (some ch, cache', k) →
      fetch_channel_cached env cache' cid = (some ch, cache', 0)) ∧
    (∀ i v, cache.lookup i = some v →
      (fetch_channel_cached env cache cid).2.1.lookup i = some v) := by
  constructor
  · intro ch cache' k h
    have hs := fetch_store_sound env cache cid ch cache' k h
    simp only [fetch_channel_cached, hs]
  · intro i v hiv
    cases hl : cache.lookup cid with
    | some ch0 =>
      simp only [fetch_channel_cached, hl]
      exact hiv
    | none =>
      have hne : i ≠ cid := by
        intro he
        subst he
        rw [hiv] at hl
        cases hl
      simp only [fetch_channel_cached, hl]
      cases hg : env.get_channel cid with
      | some ch1 =>
        show List.lookup i
            (if ch1.messageable = true then (some ch1, insertAssoc cache cid ch1, 1)
             else (none, cache, (1 : Nat))).2.1 = some v
        cases hm : ch1.messageable with
        | true =>
          rw [if_pos rfl]
          show (insertAssoc cache cid ch1).lookup i = some v
          rw [lookup_insertAssoc_ne cache cid i ch1 hne]
          exact hiv
        | false =>
          rw [if_neg (by simp)]
          exact hiv
      | none =>
        cases hf : env.fetch_channel_net cid with
        | ok ch1 =>
          show List.lookup i
              (if ch1.messageable = true then (some ch1, insertAssoc cache cid ch1, 1)
               else (none, cache, (1 : Nat))).2.1 = some v
          cases hm : ch1.messageable with
          | true =>
            rw [if_pos rfl]
            show (insertAssoc cache cid ch1).lookup i = some v
            rw [lookup_insertAssoc_ne cache cid i ch1 hne]
            exact hiv
          | false =>
            rw [if_neg (by simp)]
            exact hiv
        | error e =>
          exact hiv

/-- C7 witness: after a first call on an empty cache resolves channel 42,
a second call returns the cached handle without consulting the client. -/
theorem C7_witness :
    fetch_channel_cached envOk [(42, chEx)] 42 = (some chEx, [(42, chEx)], 0) :=
  (C7_channel_cache_idempotent envOk [] 42).1 chEx [(42, chEx)] 1 rfl

/-- Channel resolution always returns an id: every branch of
`_resolve_channel_id` returns a value, never `None`. -/
theorem resolve_isSome (cfg : BotConfig) (r : Option String) :
    (resolve_channel_id cfg r).1.isSome = true := by
  cases r with
  | none => rfl
  | some s =>
    simp only [resolve_channel_id]
    by_cases he : s.data.isEmpty = true
    · rw [if_pos he]
      rfl
    · rw [if_neg he]
      cases hl : cfg.channel_map.lookup s with
      | some v => rfl
      | none =>
        by_cases hs : s = "self"
        · rw [if_pos hs]
          rfl
        · rw [if_neg hs]
          rfl

/-- Appending different single events to the same log gives different
logs. -/
theorem append_singleton_ne {α : Type} (l : List α) (a b : α) (hab : a ≠ b) :
    l ++ [a] ≠ l ++ [b] := by
  intro he
  have h1 : [a] = [b] := List.append_cancel_left he
  injection h1 with h2 _
  exact hab h2

/-- A log never equals itself with one more event appended. -/
theorem ne_append_singleton {α : Type} (l : List α) (b : α) :
    l ≠ l ++ [b] := by
  intro he
  have := congrArg List.length he
  simp at this

/-- C10: for every recipient value — absent, empty, `"self"`, or any
unmapped string — channel resolution returns an id, never `None`;
consequently the branch of the delivery loop that would skip a record for
a missing channel id is unreachable: no delivery step ever logs a
skipped-for-missing-channel-mapping event. -/
theorem C10_resolve_never_none (cfg : BotConfig) (r : Option String)
    (env : DiscordEnv) (st : DeliverState) (n : PushNotification) :
    (resolve_channel_id cfg r).1.isSome = true ∧
    (deliver_one cfg env st n).1.events ≠
      st.events ++ [DeliverEvent.skippedNoChannelId n.id] := by
  refine ⟨resolve_isSome cfg r, ?_⟩
  cases hres : (resolve_channel_id cfg n.recipient).1 with
  | none =>
    have hsome := resolve_isSome cfg n.recipient
    rw [hres] at hsome
    cases hsome
  | some cid =>
    cases hch : (fetch_channel_cached env st.cache cid).1 with
    | none =>
      simp only [deliver_one, hres, hch]
      exact append_singleton_ne st.events _ _ (by simp)
    | some ch =>
      cases hsend : env.send ch (to_discord_message n).1 with
      | error e =>
        cases e
        simp only [deliver_one, hres, hch, hsend]
        exact append_singleton_ne st.events _ _ (by simp)
      | ok u =>
        cases u
        cases hdel : env.delete_row n.id with
        | error e =>
          cases e
          simp only [deliver_one, hres, hch, hsend, hdel]
          exact ne_append_singleton st.events _
        | ok u' =>
          cases u'
          simp only [deliver_one, hres, hch, hsend, hdel]
          exact append_singleton_ne st.events _ _ (by simp)

/-- C10 witness: resolution of an absent recipient and of `"unmapped"`
both yield ids, and the delivery step for the concrete record does not
log a missing-channel-mapping skip. -/
theorem C10_witness :
    (resolve_channel_id cfgEx (some "unmapped")).1.isSome = true :=
  (C10_resolve_never_none cfgEx (some "unmapped") envOk st0 (mkRec 1)).1

end ZlogDiscord
